import Mathlib

/-!
Verification of `hikari/interactions/modal_interactions.py`: the modal
interaction entity and its response-builder protocol
(`ModalInteraction.build_response` / `ModalInteraction.build_deferred_response`).

Definitions are translated from the source file.  Collaborators that the
source imports but that are not part of this repository snapshot
(`base_interactions.ResponseType`, the REST builder factory of
`hikari.api.special_endpoints`, the `users` and `messages` entities) are
modelled from the spec; each such definition carries a doc comment saying so.
-/

namespace Hikari

/-- A snowflake ID (`hikari.snowflakes.Snowflake`): an integer identifier. -/
structure Snowflake where
  id : Nat
deriving DecidableEq, Repr

/-- Modelled from the spec: the invoking-user reference (`hikari.users.User`
is not under `src/`); an opaque wire entity carried by reference. -/
structure User where
  user_id : Snowflake
deriving DecidableEq, Repr

/-- Modelled from the spec: the invoking-member reference
(`base_interactions.InteractionMember` is not under `src/`); the member object
comes with the extra field `permissions` holding the member's permissions in
the current channel. -/
structure InteractionMember where
  user : User
  permissions : Nat
deriving DecidableEq, Repr

/-- Modelled from the spec: the message whose component triggered the modal
(`hikari.messages.Message` is not under `src/`); an opaque entity with an
identity. -/
structure Message where
  message_id : Snowflake
deriving DecidableEq, Repr

/-- Modelled from the spec: `base_interactions.ResponseType`, "a closed set of
integer-coded kinds", is not under `src/`.  The two members legal for modal
interactions are named; the source's own docstring gives their integer codes
(`MESSAGE_CREATE`/`4`, `DEFERRED_MESSAGE_CREATE`/`5`).  The remaining members
of the enumeration are represented by `other` together with their integer
code (codes `4` and `5` belong to the two named members, so `other` only
stands for members with different codes). -/
inductive ResponseType where
  | MESSAGE_CREATE
  | DEFERRED_MESSAGE_CREATE
  | other (code : Nat)
deriving DecidableEq, Repr

/-- The integer code of a response type (`MESSAGE_CREATE`/`4`,
`DEFERRED_MESSAGE_CREATE`/`5`, per the source docstring of
`ModalResponseTypesT`). -/
def ResponseType.code : ResponseType → Nat
  | .MESSAGE_CREATE => 4
  | .DEFERRED_MESSAGE_CREATE => 5
  | .other c => c

/-- `ModalResponseTypesT = typing.Literal[ResponseType.MESSAGE_CREATE, 4,
ResponseType.DEFERRED_MESSAGE_CREATE, 5]`: membership in the type-level union
of response types valid for a modal interaction (the raw integers `4` and `5`
are the same runtime values as the two enum members). -/
def isModalResponseType : ResponseType → Bool
  | .MESSAGE_CREATE => true
  | .DEFERRED_MESSAGE_CREATE => true
  | .other _ => false

/-- `ModalInteractionTextInput`: a text input component in a modal
interaction, with the developer-set `custom_id` and the submitted `value`
(its message-component base class is not under `src/` and contributes no
field used here). -/
structure ModalInteractionTextInput where
  custom_id : String
  value : String
deriving DecidableEq, Repr

/-- `ModalInteractionActionRow`: an action row holding only text inputs,
meant purely for use with `ModalInteraction` (a structural protocol with the
single field `components`). -/
structure ModalInteractionActionRow where
  components : List ModalInteractionTextInput
deriving DecidableEq, Repr

/-- `ModalInteraction`: an attrs data class (`@attr.define(hash=True,
kw_only=True, weakref_slot=False)`, so not frozen) with the fields declared in
the source, plus the owning application context `app` inherited from the
interaction base (the base class is not under `src/`; the spec describes
`app` as the owning application context the builder factory is requested
from, represented here by its identity). -/
structure ModalInteraction where
  app : Nat
  channel_id : Snowflake
  custom_id : String
  guild_id : Option Snowflake
  guild_locale : Option String
  message : Option Message
  member : Option InteractionMember
  user : User
  locale : String
  components : List ModalInteractionActionRow
deriving Repr

/-- An `InteractionMessageBuilder` as observable at this layer: a staging
object with an allocation identity (Python object identity; its mutable
content lives in the world's heap) and the response type it was tagged with
at the factory. -/
structure InteractionMessageBuilder where
  alloc : Nat
  type : ResponseType
deriving DecidableEq, Repr

/-- An `InteractionDeferredBuilder` as observable at this layer: allocation
identity and tagged response type. -/
structure InteractionDeferredBuilder where
  alloc : Nat
  type : ResponseType
deriving DecidableEq, Repr

/-- An observable effect of running an operation: a request issued to the
application context's builder factory (recording which application context
was asked and with which response-type tag), or network input/output. -/
inductive Effect where
  | messageBuilderRequest (app : Nat) (tag : ResponseType)
  | deferredBuilderRequest (app : Nat) (tag : ResponseType)
  | networkCall
deriving DecidableEq, Repr

/-- The world threaded through stateful operations: the runtime's fresh
object allocator, the mutable content cell of every allocated builder
(indexed by allocation identity), and the log of observable effects. -/
structure World where
  nextAlloc : Nat
  contents : Nat → String
  log : List Effect

/-- Modelled from the spec: `app.rest.interaction_message_builder(tag)` (the
REST factory of `hikari.api.special_endpoints` is not under `src/`).  Per the
spec it is an opaque factory returning a fresh, independently owned and
mutable staging object tagged with the requested response type; no network
input/output happens until the caller submits the builder. -/
def interaction_message_builder (app : Nat) (tag : ResponseType) (w : World) :
    InteractionMessageBuilder × World :=
  (⟨w.nextAlloc, tag⟩,
    { nextAlloc := w.nextAlloc + 1
      contents := w.contents
      log := w.log ++ [Effect.messageBuilderRequest app tag] })

/-- Modelled from the spec: `app.rest.interaction_deferred_builder(tag)` (not
under `src/`); same shape as `interaction_message_builder`. -/
def interaction_deferred_builder (app : Nat) (tag : ResponseType) (w : World) :
    InteractionDeferredBuilder × World :=
  (⟨w.nextAlloc, tag⟩,
    { nextAlloc := w.nextAlloc + 1
      contents := w.contents
      log := w.log ++ [Effect.deferredBuilderRequest app tag] })

/-- A Python-level error (an exception propagating out of an operation). -/
inductive PyErr where
  | raised (msg : String)
deriving DecidableEq, Repr

/-- `ModalInteraction.build_response`, translated from the source:
`return self.app.rest.interaction_message_builder(ResponseType.MESSAGE_CREATE)`.
The result carries the returned builder, the post-state of `self` (Python
objects are mutable, so the method could in principle reassign fields of
`self`; this body does not), and the post-world.  The body contains no raise
and only total operations, so it never returns an error. -/
def ModalInteraction.build_response (i : ModalInteraction) (w : World) :
    Except PyErr (InteractionMessageBuilder × ModalInteraction × World) :=
  let r := interaction_message_builder i.app ResponseType.MESSAGE_CREATE w
  Except.ok (r.1, i, r.2)

/-- `ModalInteraction.build_deferred_response`, translated from the source:
`return self.app.rest.interaction_deferred_builder(ResponseType.DEFERRED_MESSAGE_CREATE)`. -/
def ModalInteraction.build_deferred_response (i : ModalInteraction) (w : World) :
    Except PyErr (InteractionDeferredBuilder × ModalInteraction × World) :=
  let r := interaction_deferred_builder i.app ResponseType.DEFERRED_MESSAGE_CREATE w
  Except.ok (r.1, i, r.2)

/-- Mutating a builder (an `ImmediateBuilder` is a mutable staging object,
e.g. `set_content`): updates that builder's content cell in the world's heap
and nothing else. -/
def set_builder_content (w : World) (b : InteractionMessageBuilder) (v : String) : World :=
  { w with contents := Function.update w.contents b.alloc v }

/-- Reading a builder's current content from the world's heap. -/
def builder_content (w : World) (b : InteractionMessageBuilder) : String :=
  w.contents b.alloc

/-- Attribute assignment `i.custom_id = v`: the class is declared
`@attr.define(hash=True, kw_only=True, weakref_slot=False)`, which leaves
attrs' `frozen` parameter at its default `False`, so plain attribute
assignment is permitted on instances from any consumer code. -/
def ModalInteraction.set_custom_id (i : ModalInteraction) (v : String) : ModalInteraction :=
  { i with custom_id := v }

/-- The acknowledgement state of an interaction as tracked by the transport
layer. -/
inductive AckState where
  | unacknowledged
  | acknowledged
deriving DecidableEq, Repr

/-- Modelled from the spec: submitting an initial response over the transport
(not under `src/`).  The transport must reject a second initial response for
the same interaction with an "already acknowledged" failure; detection lives
there, at submission time, not in the builder-producing operations. -/
def submit_initial_response (st : AckState) : Except PyErr AckState :=
  match st with
  | .unacknowledged => Except.ok .acknowledged
  | .acknowledged => Except.error (.raised "Interaction was already acknowledged")

/-- A concrete user, for concrete instantiations. -/
def exUser : User := ⟨⟨1001⟩⟩

/-- A concrete member, for concrete instantiations. -/
def exMember : InteractionMember := ⟨exUser, 8⟩

/-- A concrete triggering message, for concrete instantiations. -/
def exMessage : Message := ⟨⟨2002⟩⟩

/-- A concrete action row: two text inputs with `custom_id`s `"name"` and
`"email"` and submitted values `"Alice"` and `"a@x.com"`. -/
def exRow : ModalInteractionActionRow :=
  ⟨[⟨"name", "Alice"⟩, ⟨"email", "a@x.com"⟩]⟩

/-- A concrete guild-origin modal interaction. -/
def exInteractionGuild : ModalInteraction :=
  { app := 7
    channel_id := ⟨10⟩
    custom_id := "modal-a"
    guild_id := some ⟨123⟩
    guild_locale := some "en-US"
    message := none
    member := some exMember
    user := exUser
    locale := "en-GB"
    components := [exRow] }

/-- A concrete DM-origin modal interaction sharing `exInteractionGuild`'s
application context but differing in every other field. -/
def exInteractionDM : ModalInteraction :=
  { app := 7
    channel_id := ⟨99⟩
    custom_id := "modal-b"
    guild_id := none
    guild_locale := none
    message := some exMessage
    member := none
    user := ⟨⟨1002⟩⟩
    locale := "fr"
    components := [] }

/-- A concrete interaction whose `guild_id` is populated while `member` is
`None`: the attrs-generated constructor accepts every field combination and
performs no cross-field validation, so this instance is constructible. -/
def guildNoMember : ModalInteraction :=
  { exInteractionGuild with member := none }

/-- A concrete starting world. -/
def exWorld : World := ⟨0, fun _ => "", []⟩

/-- C1: for every `ModalInteraction` `i`, `build_response(i)` returns the
builder produced by requesting from the interaction's application context a
builder tagged `MESSAGE_CREATE`, and never any other tag: the returned
builder's tag is `MESSAGE_CREATE` and the one factory request issued is
tagged `MESSAGE_CREATE`. -/
theorem build_response_tags_MESSAGE_CREATE (i : ModalInteraction) (w : World) :
    ∃ b s w2, i.build_response w = Except.ok (b, s, w2) ∧
      b.type = ResponseType.MESSAGE_CREATE ∧
      w2.log = w.log ++ [Effect.messageBuilderRequest i.app ResponseType.MESSAGE_CREATE] :=
  ⟨_, _, _, rfl, rfl, rfl⟩

/-- C1 witness: the property at a concrete interaction and world. -/
theorem build_response_tags_MESSAGE_CREATE_witness :
    ∃ b s w2, exInteractionGuild.build_response exWorld = Except.ok (b, s, w2) ∧
      b.type = ResponseType.MESSAGE_CREATE ∧
      w2.log = exWorld.log ++
        [Effect.messageBuilderRequest exInteractionGuild.app ResponseType.MESSAGE_CREATE] :=
  build_response_tags_MESSAGE_CREATE exInteractionGuild exWorld

/-- C2: for every `ModalInteraction` `i`, `build_deferred_response(i)` returns
the builder produced by requesting from the interaction's application context
a builder tagged `DEFERRED_MESSAGE_CREATE`, and never any other tag. -/
theorem build_deferred_response_tags_DEFERRED (i : ModalInteraction) (w : World) :
    ∃ b s w2, i.build_deferred_response w = Except.ok (b, s, w2) ∧
      b.type = ResponseType.DEFERRED_MESSAGE_CREATE ∧
      w2.log = w.log ++
        [Effect.deferredBuilderRequest i.app ResponseType.DEFERRED_MESSAGE_CREATE] :=
  ⟨_, _, _, rfl, rfl, rfl⟩

/-- C2 witness: the property at a concrete DM-origin interaction and world. -/
theorem build_deferred_response_tags_DEFERRED_witness :
    ∃ b s w2, exInteractionDM.build_deferred_response exWorld = Except.ok (b, s, w2) ∧
      b.type = ResponseType.DEFERRED_MESSAGE_CREATE ∧
      w2.log = exWorld.log ++
        [Effect.deferredBuilderRequest exInteractionDM.app ResponseType.DEFERRED_MESSAGE_CREATE] :=
  build_deferred_response_tags_DEFERRED exInteractionDM exWorld

/-- C3 counterexample: the claim "member is populated if and only if guild_id
is populated, for every constructed ModalInteraction" is false: the
attrs-generated constructor performs no cross-field validation, and
`guildNoMember` is a constructed instance with `guild_id` populated and
`member = None`. -/
theorem member_guild_invariant_refuted :
    ¬ ∀ i : ModalInteraction, i.member.isSome = i.guild_id.isSome :=
  fun h => absurd (h guildNoMember) (by decide)

/-- C3 (amended): construction does not constrain `member` against
`guild_id`: for every combination of an optional member and an optional guild
ID (and arbitrary remaining fields), the constructor yields an instance
carrying exactly that member and that guild ID, so the member/guild linkage
is a platform delivery convention, not an invariant enforced by the code. -/
theorem construction_allows_any_member_guild_combination
    (mem : Option InteractionMember) (g : Option Snowflake) (a : Nat)
    (c : Snowflake) (cid : String) (gl : Option String) (m : Option Message)
    (u : User) (l : String) (comps : List ModalInteractionActionRow) :
    (ModalInteraction.mk a c cid g gl m mem u l comps).member = mem ∧
    (ModalInteraction.mk a c cid g gl m mem u l comps).guild_id = g :=
  ⟨rfl, rfl⟩

/-- C3 (amended) witness: the guild-ID-without-member combination at concrete
values. -/
theorem construction_allows_any_member_guild_combination_witness :
    (ModalInteraction.mk 7 ⟨10⟩ "modal-a" (some ⟨123⟩) (some "en-US") none none
        exUser "en-GB" [exRow]).member = none ∧
    (ModalInteraction.mk 7 ⟨10⟩ "modal-a" (some ⟨123⟩) (some "en-US") none none
        exUser "en-GB" [exRow]).guild_id = some ⟨123⟩ :=
  construction_allows_any_member_guild_combination none (some ⟨123⟩) 7 ⟨10⟩
    "modal-a" (some "en-US") none exUser "en-GB" [exRow]

/-- C4: for every `ModalInteraction`, `build_response` and
`build_deferred_response` raise no error (both return `ok`); the
double-acknowledgement contract violation surfaces from the downstream
transport call at submission time (`submit_initial_response` on an already
acknowledged interaction), never from these two operations. -/
theorem build_ops_never_raise (i : ModalInteraction) (w : World) :
    (∃ x, i.build_response w = Except.ok x) ∧
    (∃ y, i.build_deferred_response w = Except.ok y) ∧
    submit_initial_response AckState.acknowledged =
      Except.error (PyErr.raised "Interaction was already acknowledged") :=
  ⟨⟨_, rfl⟩, ⟨_, rfl⟩, rfl⟩

/-- C4 witness: at a concrete interaction and world. -/
theorem build_ops_never_raise_witness :
    (∃ x, exInteractionGuild.build_response exWorld = Except.ok x) ∧
    (∃ y, exInteractionGuild.build_deferred_response exWorld = Except.ok y) ∧
    submit_initial_response AckState.acknowledged =
      Except.error (PyErr.raised "Interaction was already acknowledged") :=
  build_ops_never_raise exInteractionGuild exWorld

/-- C5: `build_response` and `build_deferred_response` have no side effect
beyond the single factory call: every field of the interaction (channel_id,
custom_id, guild_id, guild_locale, message, member, user, locale, components)
is unchanged in the post-state of `self`, the builder heap is untouched, and
the only new effect is the one factory request — no network input/output
occurs. -/
theorem build_ops_frame (i : ModalInteraction) (w : World) :
    ∃ b s w2 b2 s2 w3,
      i.build_response w = Except.ok (b, s, w2) ∧
      i.build_deferred_response w = Except.ok (b2, s2, w3) ∧
      s.channel_id = i.channel_id ∧ s.custom_id = i.custom_id ∧
      s.guild_id = i.guild_id ∧ s.guild_locale = i.guild_locale ∧
      s.message = i.message ∧ s.member = i.member ∧ s.user = i.user ∧
      s.locale = i.locale ∧ s.components = i.components ∧ s2 = i ∧
      w2.contents = w.contents ∧ w3.contents = w.contents ∧
      w2.log = w.log ++ [Effect.messageBuilderRequest i.app ResponseType.MESSAGE_CREATE] ∧
      w3.log = w.log ++
        [Effect.deferredBuilderRequest i.app ResponseType.DEFERRED_MESSAGE_CREATE] ∧
      Effect.networkCall ∉
        [Effect.messageBuilderRequest i.app ResponseType.MESSAGE_CREATE] ∧
      Effect.networkCall ∉
        [Effect.deferredBuilderRequest i.app ResponseType.DEFERRED_MESSAGE_CREATE] := by
  refine ⟨_, _, _, _, _, _, rfl, rfl, rfl, rfl, rfl, rfl, rfl, rfl, rfl, rfl,
    rfl, rfl, rfl, rfl, rfl, rfl, ?_, ?_⟩ <;> simp

/-- C5 witness: the frame property at a concrete interaction and world. -/
theorem build_ops_frame_witness :
    ∃ b s w2 b2 s2 w3,
      exInteractionGuild.build_response exWorld = Except.ok (b, s, w2) ∧
      exInteractionGuild.build_deferred_response exWorld = Except.ok (b2, s2, w3) ∧
      s.channel_id = exInteractionGuild.channel_id ∧
      s.custom_id = exInteractionGuild.custom_id ∧
      s.guild_id = exInteractionGuild.guild_id ∧
      s.guild_locale = exInteractionGuild.guild_locale ∧
      s.message = exInteractionGuild.message ∧
      s.member = exInteractionGuild.member ∧ s.user = exInteractionGuild.user ∧
      s.locale = exInteractionGuild.locale ∧
      s.components = exInteractionGuild.components ∧ s2 = exInteractionGuild ∧
      w2.contents = exWorld.contents ∧ w3.contents = exWorld.contents ∧
      w2.log = exWorld.log ++
        [Effect.messageBuilderRequest exInteractionGuild.app ResponseType.MESSAGE_CREATE] ∧
      w3.log = exWorld.log ++
        [Effect.deferredBuilderRequest exInteractionGuild.app
          ResponseType.DEFERRED_MESSAGE_CREATE] ∧
      Effect.networkCall ∉
        [Effect.messageBuilderRequest exInteractionGuild.app ResponseType.MESSAGE_CREATE] ∧
      Effect.networkCall ∉
        [Effect.deferredBuilderRequest exInteractionGuild.app
          ResponseType.DEFERRED_MESSAGE_CREATE] :=
  build_ops_frame exInteractionGuild exWorld

/-- C6: the set of legal response kinds for a modal interaction
(`ModalResponseTypesT`) is exactly `{MESSAGE_CREATE, DEFERRED_MESSAGE_CREATE}`,
whose integer codes are `4` and `5`; every other member of the response-type
enumeration is illegal for this interaction category. -/
theorem modal_response_types_exact :
    (∀ r : ResponseType, isModalResponseType r = true ↔
        r = ResponseType.MESSAGE_CREATE ∨ r = ResponseType.DEFERRED_MESSAGE_CREATE) ∧
    ResponseType.code ResponseType.MESSAGE_CREATE = 4 ∧
    ResponseType.code ResponseType.DEFERRED_MESSAGE_CREATE = 5 ∧
    (∀ c : Nat, isModalResponseType (ResponseType.other c) = false) := by
  refine ⟨?_, rfl, rfl, fun c => rfl⟩
  intro r
  cases r <;> simp [isModalResponseType]

/-- C6 witness: concrete membership facts drawn from the theorem. -/
theorem modal_response_types_exact_witness :
    isModalResponseType ResponseType.MESSAGE_CREATE = true ∧
    isModalResponseType (ResponseType.other 9) = false :=
  ⟨(modal_response_types_exact.1 ResponseType.MESSAGE_CREATE).mpr (Or.inl rfl),
   modal_response_types_exact.2.2.2 9⟩

/-- C7: two successive calls of `build_response` on the same interaction
produce two independent builder instances: their allocation identities
differ, and mutating either builder's content leaves the other builder's
content unchanged. -/
theorem build_response_twice_independent (i : ModalInteraction) (w : World) :
    ∃ b1 s1 w1 b2 s2 w2,
      i.build_response w = Except.ok (b1, s1, w1) ∧
      s1.build_response w1 = Except.ok (b2, s2, w2) ∧
      b1.alloc ≠ b2.alloc ∧
      (∀ v, builder_content (set_builder_content w2 b1 v) b2 = builder_content w2 b2) ∧
      (∀ v, builder_content (set_builder_content w2 b2 v) b1 = builder_content w2 b1) := by
  refine ⟨_, _, _, _, _, _, rfl, rfl, ?_, ?_, ?_⟩
  · simp [ModalInteraction.build_response, interaction_message_builder]
  · intro v
    simp [ModalInteraction.build_response, interaction_message_builder,
      builder_content, set_builder_content, Function.update_apply]
  · intro v
    simp [ModalInteraction.build_response, interaction_message_builder,
      builder_content, set_builder_content, Function.update_apply]

/-- C7 witness: two successive calls at a concrete interaction and world. -/
theorem build_response_twice_independent_witness :
    ∃ b1 s1 w1 b2 s2 w2,
      exInteractionGuild.build_response exWorld = Except.ok (b1, s1, w1) ∧
      s1.build_response w1 = Except.ok (b2, s2, w2) ∧
      b1.alloc ≠ b2.alloc ∧
      (∀ v, builder_content (set_builder_content w2 b1 v) b2 = builder_content w2 b2) ∧
      (∀ v, builder_content (set_builder_content w2 b2 v) b1 = builder_content w2 b1) :=
  build_response_twice_independent exInteractionGuild exWorld

/-- C8: constructing a `ModalInteraction` preserves its components exactly:
for every supplied sequence of action rows the constructed instance's
`components` equals it, and in particular the concrete row with `custom_id`s
`"name"`/`"email"` and values `"Alice"`/`"a@x.com"` round-trips unchanged. -/
theorem construction_preserves_components (a : Nat) (c : Snowflake)
    (cid : String) (g : Option Snowflake) (gl : Option String)
    (m : Option Message) (mem : Option InteractionMember) (u : User)
    (l : String) (comps : List ModalInteractionActionRow) :
    (ModalInteraction.mk a c cid g gl m mem u l comps).components = comps ∧
    exInteractionGuild.components = [⟨[⟨"name", "Alice"⟩, ⟨"email", "a@x.com"⟩]⟩] :=
  ⟨rfl, rfl⟩

/-- C8 witness: the round-trip at the concrete scenario row. -/
theorem construction_preserves_components_witness :
    (ModalInteraction.mk 7 ⟨10⟩ "modal-a" (some ⟨123⟩) (some "en-US") none
        (some exMember) exUser "en-GB" [exRow]).components = [exRow] ∧
    exInteractionGuild.components = [⟨[⟨"name", "Alice"⟩, ⟨"email", "a@x.com"⟩]⟩] :=
  construction_preserves_components 7 ⟨10⟩ "modal-a" (some ⟨123⟩) (some "en-US")
    none (some exMember) exUser "en-GB" [exRow]

/-- C9 counterexample: the claim "no operation available to consumer code
changes any of its fields" is false: the class is declared without
`frozen=True`, so attribute assignment (`i.custom_id = v`) is available to
consumer code, and at this concrete instance it changes the `custom_id`
field. -/
theorem consumer_mutation_changes_field :
    (exInteractionGuild.set_custom_id "changed").custom_id ≠
      exInteractionGuild.custom_id := by
  decide

/-- C9 (amended): a `ModalInteraction` is read-only by convention, not by
enforcement: its own operations `build_response` and
`build_deferred_response` leave every field unchanged, but the attrs class is
not frozen, so plain attribute assignment remains available to consumer code
and sets the assigned field. -/
theorem methods_preserve_fields_class_not_frozen (i : ModalInteraction)
    (w : World) (v : String) :
    (∃ b w2, i.build_response w = Except.ok (b, i, w2)) ∧
    (∃ b w2, i.build_deferred_response w = Except.ok (b, i, w2)) ∧
    (i.set_custom_id v).custom_id = v :=
  ⟨⟨_, _, rfl⟩, ⟨_, _, rfl⟩, rfl⟩

/-- C9 (amended) witness: at a concrete interaction, world and value. -/
theorem methods_preserve_fields_class_not_frozen_witness :
    (∃ b w2, exInteractionGuild.build_response exWorld =
        Except.ok (b, exInteractionGuild, w2)) ∧
    (∃ b w2, exInteractionGuild.build_deferred_response exWorld =
        Except.ok (b, exInteractionGuild, w2)) ∧
    (exInteractionGuild.set_custom_id "changed").custom_id = "changed" :=
  methods_preserve_fields_class_not_frozen exInteractionGuild exWorld "changed"

/-- C10: the results of `build_response` and `build_deferred_response` depend
only on the interaction's application context: two interactions sharing the
same `app` but differing in any or all other fields yield identical builders
and identical factory-request logs from the same starting world. -/
theorem build_results_depend_only_on_app (i1 i2 : ModalInteraction) (w : World)
    (h : i1.app = i2.app) :
    ∃ b s1 w1 s2 w2 d t1 u1 t2 u2,
      i1.build_response w = Except.ok (b, s1, w1) ∧
      i2.build_response w = Except.ok (b, s2, w2) ∧ w1.log = w2.log ∧
      i1.build_deferred_response w = Except.ok (d, t1, u1) ∧
      i2.build_deferred_response w = Except.ok (d, t2, u2) ∧ u1.log = u2.log := by
  refine ⟨_, _, _, _, _, _, _, _, _, _, rfl, rfl, ?_, rfl, rfl, ?_⟩ <;>
    simp [ModalInteraction.build_response, ModalInteraction.build_deferred_response,
      interaction_message_builder, interaction_deferred_builder, h]

/-- C10 witness: the guild-origin and DM-origin concrete interactions share
the same application context while differing in every other field. -/
theorem build_results_depend_only_on_app_witness :
    exInteractionGuild.app = exInteractionDM.app ∧
    (∃ b s1 w1 s2 w2 d t1 u1 t2 u2,
      exInteractionGuild.build_response exWorld = Except.ok (b, s1, w1) ∧
      exInteractionDM.build_response exWorld = Except.ok (b, s2, w2) ∧
      w1.log = w2.log ∧
      exInteractionGuild.build_deferred_response exWorld = Except.ok (d, t1, u1) ∧
      exInteractionDM.build_deferred_response exWorld = Except.ok (d, t2, u2) ∧
      u1.log = u2.log) :=
  ⟨rfl, build_results_depend_only_on_app exInteractionGuild exInteractionDM exWorld rfl⟩

end Hikari
